import Mathlib

/-!
Verification of the backend selector in `auto_gptq/utils/import_utils.py`.

The file probes optional native extensions at import time (recorded here as
the `Capabilities` snapshot), selects a concrete `QuantLinear` backend in
`dynamically_import_QuantLinear`, and offers two version comparators.
Python exceptions are embedded as an `Except SelectError` result. The
warning latch `_warned` is bound at module load only when the
`intel_extension_for_pytorch` import succeeds; when that import failed,
the selector raises `NameError` as soon as it reads the latch on the
no-cuda path, and the embedding models that error path explicitly.
-/

/-- Snapshot of the module-level capability probe of `import_utils.py`:
one boolean per optional native extension (with the captured import
diagnostic for qigen, marlin and ipex), plus the two runtime checks the
selector performs (whether `habana_frameworks.torch.hpu` is importable and
whether `torch.cuda.is_available()` holds). The warning latch `_warned`
is bound exactly when `ipex_available` is true: the assignment
`_warned = False` sits in the same `try` arm as the successful
`import intel_extension_for_pytorch`, and the in-function rebinding
`_warned = True` is only reachable after a successful read. -/
structure Capabilities where
  triton_available : Bool
  autogptq_cuda_available : Bool
  exllama_kernels_available : Bool
  exllamav2_kernels_available : Bool
  qigen_available : Bool
  qigen_exception : String
  marlin_available : Bool
  marlin_exception : String
  ipex_available : Bool
  ipex_exception : String
  hpu_importable : Bool
  cuda_is_available : Bool
  deriving DecidableEq, Repr

/-- The concrete `QuantLinear` implementation returned by the selector: one
constructor per `from ..nn_modules.qlinear.qlinear_* import QuantLinear`
line of the source. `cudaOld` is the module `qlinear_cuda_old` (the
"cuda-legacy" handle of the spec), `cuda` is `qlinear_cuda`
("cuda-generic"). -/
inductive QuantLinearBackend
  | hpu
  | qigen
  | tritonV1
  | tritonV2
  | ipex
  | marlin
  | exllamaV2
  | exllamaV1
  | cudaOld
  | cuda
  deriving DecidableEq, Repr

/-- Exceptions raised by the embedded code: `valueError` for Python
`raise ValueError(msg)`, `assertionError` for a failed `assert` (a bare
`assert cond` carries the empty message), and `nameError` for reading an
unbound global name, carrying that name. -/
inductive SelectError
  | valueError (msg : String)
  | assertionError (msg : String)
  | nameError (name : String)
  deriving DecidableEq, Repr

/-- Message of the `ValueError` raised when `use_qigen=True` but the qigen
extension failed to import, built exactly as the f-string of the source
around the captured exception text. -/
def qigenUnavailableMessage (e : String) : String :=
  "QIGen appears to be not available with the error: " ++ e ++
    ". Please check your installation or use `use_qigen=False`."

/-- Message of the `ValueError` raised when the ipex branch is taken but the
intel extension failed to import, built exactly as the f-string of the
source around the captured exception text. -/
def ipexUnavailableMessage (e : String) : String :=
  "IPEX appears to be not available with the error: " ++ e ++
    ". Please install with `pip install intel-extension-for-pytorch`."

/-- Outcome of the block `if not torch.cuda.is_available() and not
use_ipex:` of the source, which reads the warning latch before forcing
`use_ipex = True`. When the `intel_extension_for_pytorch` import failed,
the global `_warned` is unbound and the read `if not _warned:` raises
`NameError` before any selection logic; otherwise the block only logs and
yields the forced value (the warning itself has no effect on
selection). -/
def cuda_check_use_ipex (cuda_is_available ipex_available use_ipex : Bool) :
    Except SelectError Bool :=
  if !cuda_is_available && !use_ipex then
    if !ipex_available then .error (.nameError "_warned") else .ok true
  else
    .ok use_ipex

/-- Derivation of the tri-state `disable_exllama` parameter in the default
branch of the source: an explicitly passed value is kept; when `None`, it
becomes `False` if `disable_exllamav2` is `True` and `True` otherwise. -/
def effective_disable_exllama (disable_exllama : Option Bool)
    (disable_exllamav2 : Bool) : Bool :=
  match disable_exllama with
  | some b => b
  | none => if disable_exllamav2 then false else true

/-- Selection chain of the source after the cuda check: the qigen, triton,
ipex and default CUDA/CPU branches, taking the possibly forced use_ipex
value. Each `from ... import QuantLinear; return QuantLinear` becomes
`.ok` of the corresponding `QuantLinearBackend`; each `raise` or failed
`assert` becomes `.error`. -/
def select_backend_body (caps : Capabilities)
    (use_triton : Bool) (desc_act : Bool) (group_size : Int) (bits : Int)
    (disable_exllama : Option Bool) (disable_exllamav2 : Bool)
    (use_qigen : Bool) (use_marlin : Bool) (use_tritonv2 : Bool)
    (use_ipex : Bool) : Except SelectError QuantLinearBackend :=
  if use_qigen then
    if !caps.qigen_available then
      .error (.valueError (qigenUnavailableMessage caps.qigen_exception))
    else
      .ok .qigen
  else
    if use_triton || use_tritonv2 then
      if use_tritonv2 then .ok .tritonV2 else .ok .tritonV1
    else if use_ipex then
      if !(bits == 4) then
        .error (.assertionError "IPEX only support 4bit GPTQ")
      else if !caps.ipex_available then
        .error (.valueError (ipexUnavailableMessage caps.ipex_exception))
      else
        .ok .ipex
    else
      let disable_exllama :=
        effective_disable_exllama disable_exllama disable_exllamav2
      if bits == 4 && use_marlin then
        .ok .marlin
      else if bits == 4 && !disable_exllamav2 &&
          caps.exllamav2_kernels_available then
        .ok .exllamaV2
      else if bits == 4 && !disable_exllama &&
          caps.exllama_kernels_available then
        .ok .exllamaV1
      else if !desc_act || group_size == -1 then
        .ok .cudaOld
      else
        .ok .cuda

/-- Embedding of `dynamically_import_QuantLinear` of
`auto_gptq/utils/import_utils.py`. Parameters follow the Python signature;
the module-level flags and the two runtime probes are passed in `caps`.
The HPU import check returns first; then the cuda check either raises the
latch `NameError` or yields the possibly forced use_ipex, and the
selection chain runs on the result. -/
def dynamically_import_QuantLinear (caps : Capabilities)
    (use_triton : Bool) (desc_act : Bool) (group_size : Int) (bits : Int)
    (disable_exllama : Option Bool) (disable_exllamav2 : Bool)
    (use_qigen : Bool) (use_marlin : Bool) (use_tritonv2 : Bool)
    (use_ipex : Bool) : Except SelectError QuantLinearBackend :=
  if caps.hpu_importable then
    .ok .hpu
  else
    match cuda_check_use_ipex caps.cuda_is_available caps.ipex_available
        use_ipex with
    | .error e => .error e
    | .ok use_ipex =>
        select_backend_body caps use_triton desc_act group_size bits
          disable_exllama disable_exllamav2 use_qigen use_marlin
          use_tritonv2 use_ipex

/-- Split of a character list at every occurrence of the separator; the
empty list yields one empty segment, as Python str.split with a separator
does. -/
def split_segments (sep : Char) : List Char → List (List Char)
  | [] => [[]]
  | c :: cs =>
      match split_segments sep cs with
      | [] => [[]]
      | seg :: rest =>
          if c = sep then [] :: seg :: rest else (c :: seg) :: rest

/-- Value of a non-empty all-digit segment, none otherwise. -/
def segment_to_nat (cs : List Char) : Option Nat :=
  if cs ≠ [] ∧ cs.all Char.isDigit then
    some (cs.foldl (fun acc c => acc * 10 + (c.toNat - 48)) 0)
  else
    none

/-- Release segments of a version string: a leading "v" is ignored and the
dot-separated numeric segments are collected (a malformed segment counts
as 0). Modelled from the external `packaging.version.parse` dependency as
used by the comparators on plain release versions such as "v4.28.0". -/
def parse_version (s : String) : List Nat :=
  let cs := match s.toList with
    | 'v' :: rest => rest
    | other => other
  (split_segments '.' cs).map (fun seg => (segment_to_nat seg).getD 0)

/-- Lexicographic comparison of release segments, the order underlying the
rich comparisons of parsed versions. -/
def version_compare : List Nat → List Nat → Ordering
  | [], [] => .eq
  | [], _ :: _ => .lt
  | _ :: _, [] => .gt
  | a :: as, b :: bs =>
      if a < b then .lt else if b < a then .gt else version_compare as bs

/-- Dispatch of `getattr(parsed_installed, f"__{op}__")(parsed_target)` for
an operator of the permitted set, the installed version on the left. -/
def apply_version_op (op : String) (a b : List Nat) : Bool :=
  if op = "eq" then version_compare a b == .eq
  else if op = "lt" then version_compare a b == .lt
  else if op = "le" then version_compare a b != .gt
  else if op = "gt" then version_compare a b == .gt
  else version_compare a b != .lt

/-- The operator whitelist of both comparators, the Python list literal
`["eq", "lt", "le", "gt", "ge"]`. -/
def version_ops : List String := ["eq", "lt", "le", "gt", "ge"]

/-- Embedding of `compare_transformers_version`: the installed
`transformers.__version__` is passed explicitly as `installed`. A failed
`assert op in [...]` is an `assertionError` with empty message. -/
def compare_transformers_version (installed : String) (version : String)
    (op : String) : Except SelectError Bool :=
  if version_ops.contains op then
    .ok (apply_version_op op (parse_version installed) (parse_version version))
  else
    .error (.assertionError "")

/-- Embedding of `compare_pytorch_version`: the installed
`torch.__version__` is passed explicitly as `installed`. -/
def compare_pytorch_version (installed : String) (version : String)
    (op : String) : Except SelectError Bool :=
  if version_ops.contains op then
    .ok (apply_version_op op (parse_version installed) (parse_version version))
  else
    .error (.assertionError "")

/-- Capability snapshot with every probe failed and no cuda runtime, with
fixed diagnostic texts. -/
def capsNone : Capabilities :=
  { triton_available := false
    autogptq_cuda_available := false
    exllama_kernels_available := false
    exllamav2_kernels_available := false
    qigen_available := false
    qigen_exception := "No module named cQIGen"
    marlin_available := false
    marlin_exception := "No module named autogptq_marlin_cuda"
    ipex_available := false
    ipex_exception := "No module named intel_extension_for_pytorch"
    hpu_importable := false
    cuda_is_available := false }

/-- Capability snapshot with every probe failed but a cuda runtime
detected. -/
def capsNoneCuda : Capabilities :=
  { capsNone with cuda_is_available := true }

/-- C2: if the HPU runtime extension is importable at call time, the
selector returns the hpu backend for every configuration, every preference
flag and every combination of capability flags; nothing else is
consulted. -/
theorem hpu_short_circuits (caps : Capabilities)
    (h : caps.hpu_importable = true)
    (use_triton desc_act : Bool) (group_size bits : Int)
    (disable_exllama : Option Bool)
    (disable_exllamav2 use_qigen use_marlin use_tritonv2 use_ipex : Bool) :
    dynamically_import_QuantLinear caps use_triton desc_act group_size bits
      disable_exllama disable_exllamav2 use_qigen use_marlin use_tritonv2
      use_ipex = .ok .hpu := by
  simp [dynamically_import_QuantLinear, h]

/-- Witness for C2 at a concrete input: hpu importable, every other
capability present, cuda available. -/
theorem hpu_short_circuits_at_instance :
    dynamically_import_QuantLinear
      { capsNone with hpu_importable := true, cuda_is_available := true }
      true true 128 8 (some false) true true true true true = .ok .hpu :=
  hpu_short_circuits
    { capsNone with hpu_importable := true, cuda_is_available := true }
    rfl true true 128 8 (some false) true true true true true

/-- C3 counterexample: with HPU absent, use_qigen false and use_triton
requested, but no cuda runtime, use_ipex left false and the IPEX import
failed, the source raises NameError reading the unbound warning latch
before the triton check, instead of returning triton-v1 as the claim
states for every capability combination. -/
theorem triton_request_no_gpu_nameerror :
    dynamically_import_QuantLinear capsNone true true 128 8 none false
      false false false false = .error (.nameError "_warned") :=
  rfl

/-- C3 amended: with HPU absent and use_qigen false, provided the latch
read cannot raise (a cuda runtime is detected, or use_ipex was passed
true, or the IPEX import succeeded), a request for triton (either
version) returns triton-v2 when use_tritonv2 holds and triton-v1
otherwise, for every remaining capability combination (the triton
capability flag in particular is never consulted) and every
configuration. -/
theorem triton_request_selects_triton (caps : Capabilities)
    (h : caps.hpu_importable = false)
    (use_triton desc_act : Bool) (group_size bits : Int)
    (disable_exllama : Option Bool)
    (disable_exllamav2 use_marlin use_tritonv2 use_ipex : Bool)
    (ht : (use_triton || use_tritonv2) = true)
    (hg : (caps.cuda_is_available || use_ipex || caps.ipex_available)
      = true) :
    dynamically_import_QuantLinear caps use_triton desc_act group_size bits
      disable_exllama disable_exllamav2 false use_marlin use_tritonv2
      use_ipex
      = .ok (if use_tritonv2 then .tritonV2 else .tritonV1) := by
  cases use_triton <;> cases use_tritonv2 <;>
    cases hc : caps.cuda_is_available <;> cases hu : use_ipex <;>
      cases hip : caps.ipex_available <;>
        simp_all [dynamically_import_QuantLinear, cuda_check_use_ipex,
          select_backend_body, h]

/-- Witness for C3 at a concrete input: triton requested while the triton
capability flag is false, with a cuda runtime detected. -/
theorem triton_request_at_instance :
    (capsNoneCuda.triton_available = false ∧ (true || false) = true ∧
      (capsNoneCuda.cuda_is_available || false ||
        capsNoneCuda.ipex_available) = true) ∧
      dynamically_import_QuantLinear capsNoneCuda true true 128 8 none false
        false false false false = .ok .tritonV1 :=
  ⟨⟨rfl, rfl, rfl⟩,
    triton_request_selects_triton capsNoneCuda rfl true true 128 8 none
      false false false false rfl rfl⟩

/-- C4: in the default CUDA/CPU family, bits = 4 with use_marlin returns
marlin with no capability check: the marlin availability flag, both
exllama flags and the disable parameters are arbitrary. -/
theorem marlin_takes_priority (caps : Capabilities)
    (h : caps.hpu_importable = false)
    (hc : caps.cuda_is_available = true)
    (desc_act : Bool) (group_size : Int)
    (disable_exllama : Option Bool) (disable_exllamav2 : Bool) :
    dynamically_import_QuantLinear caps false desc_act group_size 4
      disable_exllama disable_exllamav2 false true false false
      = .ok .marlin := by
  simp [dynamically_import_QuantLinear, cuda_check_use_ipex,
    select_backend_body, h, hc]

/-- Witness for C4 at a concrete input: exllama-v2 capability true and not
disabled, marlin capability false, yet marlin is returned. -/
theorem marlin_priority_at_instance :
    (({ capsNoneCuda with exllamav2_kernels_available := true
        : Capabilities }).exllamav2_kernels_available = true ∧
      dynamically_import_QuantLinear
        { capsNoneCuda with exllamav2_kernels_available := true }
        false true 128 4 none false false true false false = .ok .marlin) :=
  ⟨rfl,
    marlin_takes_priority
      { capsNoneCuda with exllamav2_kernels_available := true }
      rfl rfl true 128 none false⟩

/-- C5: the tri-state derivation keeps an explicitly passed disable_exllama,
derives false from disable_exllamav2 = true and true otherwise; and with
default preference flags, bits 4, group_size 128, desc_act true and the
exllama-v2 capability flag true, the selector returns exllama-v2. -/
theorem disable_exllama_derivation_and_v2_selected (caps : Capabilities)
    (h : caps.hpu_importable = false)
    (hc : caps.cuda_is_available = true)
    (hv2 : caps.exllamav2_kernels_available = true) :
    ((∀ b d, effective_disable_exllama (some b) d = b) ∧
      effective_disable_exllama none true = false ∧
      effective_disable_exllama none false = true) ∧
    dynamically_import_QuantLinear caps false true 128 4 none false false
      false false false = .ok .exllamaV2 := by
  refine ⟨⟨fun b d => rfl, rfl, rfl⟩, ?_⟩
  simp [dynamically_import_QuantLinear, cuda_check_use_ipex,
    select_backend_body, h, hc, hv2]

/-- Witness for C5 at a concrete input: only the exllama-v2 capability is
available. -/
theorem exllamav2_selected_at_instance :
    dynamically_import_QuantLinear
      { capsNoneCuda with exllamav2_kernels_available := true }
      false true 128 4 none false false false false false
      = .ok .exllamaV2 :=
  (disable_exllama_derivation_and_v2_selected
    { capsNoneCuda with exllamav2_kernels_available := true }
    rfl rfl rfl).2

/-- C6 counterexample: use_ipex is effectively true (forced: no cuda
runtime, use_ipex left false) and bits = 8, so the claim predicts the
4-bit assertion error; the source instead raises NameError reading the
unbound warning latch, because the IPEX import failed. -/
theorem forced_ipex_unavailable_nameerror :
    dynamically_import_QuantLinear capsNone false true 128 8 none false
      false false false false = .error (.nameError "_warned") :=
  rfl

/-- C6 amended: with HPU absent and use_qigen, use_triton, use_tritonv2
false. When use_ipex is passed true: bits ≠ 4 fails the assertion;
bits = 4 with the ipex capability flag false raises the ValueError whose
message embeds the captured diagnostic; bits = 4 with the flag true
returns ipex (so use_ipex=true with bits=8 always fails). When use_ipex is
instead forced (no cuda runtime, use_ipex left false): a failed load of
IPEX raises NameError at the warning latch before the branch; a
successful one reaches the branch, where bits ≠ 4 fails the assertion and
bits = 4 returns ipex (the ValueError arm is unreachable there). -/
theorem ipex_branch_requires_4bit_and_capability (caps : Capabilities)
    (h : caps.hpu_importable = false)
    (desc_act : Bool) (group_size bits : Int)
    (disable_exllama : Option Bool) (disable_exllamav2 use_marlin : Bool) :
    ((bits ≠ 4 →
      dynamically_import_QuantLinear caps false desc_act group_size bits
        disable_exllama disable_exllamav2 false use_marlin false true
        = .error (.assertionError "IPEX only support 4bit GPTQ")) ∧
    (caps.ipex_available = false →
      dynamically_import_QuantLinear caps false desc_act group_size 4
        disable_exllama disable_exllamav2 false use_marlin false true
        = .error
            (.valueError (ipexUnavailableMessage caps.ipex_exception)) ∧
      ∃ p s, ipexUnavailableMessage caps.ipex_exception
        = p ++ caps.ipex_exception ++ s) ∧
    (caps.ipex_available = true →
      dynamically_import_QuantLinear caps false desc_act group_size 4
        disable_exllama disable_exllamav2 false use_marlin false true
        = .ok .ipex)) ∧
    (caps.cuda_is_available = false →
      (caps.ipex_available = false →
        dynamically_import_QuantLinear caps false desc_act group_size bits
          disable_exllama disable_exllamav2 false use_marlin false false
          = .error (.nameError "_warned")) ∧
      (caps.ipex_available = true →
        (bits ≠ 4 →
          dynamically_import_QuantLinear caps false desc_act group_size
            bits disable_exllama disable_exllamav2 false use_marlin false
            false
            = .error (.assertionError "IPEX only support 4bit GPTQ")) ∧
        dynamically_import_QuantLinear caps false desc_act group_size 4
          disable_exllama disable_exllamav2 false use_marlin false false
          = .ok .ipex)) := by
  refine ⟨⟨fun hb => ?_, fun ha => ⟨?_, ?_⟩, fun ha => ?_⟩,
    fun hcu => ⟨fun ha => ?_, fun ha => ⟨fun hb => ?_, ?_⟩⟩⟩
  · simp [dynamically_import_QuantLinear, cuda_check_use_ipex,
      select_backend_body, h, hb]
  · simp [dynamically_import_QuantLinear, cuda_check_use_ipex,
      select_backend_body, h, ha]
  · exact ⟨"IPEX appears to be not available with the error: ",
      ". Please install with `pip install intel-extension-for-pytorch`.",
      rfl⟩
  · simp [dynamically_import_QuantLinear, cuda_check_use_ipex,
      select_backend_body, h, ha]
  · simp [dynamically_import_QuantLinear, cuda_check_use_ipex,
      select_backend_body, h, hcu, ha]
  · simp [dynamically_import_QuantLinear, cuda_check_use_ipex,
      select_backend_body, h, hcu, ha, hb]
  · simp [dynamically_import_QuantLinear, cuda_check_use_ipex,
      select_backend_body, h, hcu, ha]

/-- Witness for C6 at a concrete input: use_ipex requested with bits = 8,
where the assertion fires. -/
theorem ipex_branch_at_instance :
    dynamically_import_QuantLinear capsNoneCuda false true 128 8 none false
      false false false true
      = .error (.assertionError "IPEX only support 4bit GPTQ") :=
  (ipex_branch_requires_4bit_and_capability capsNoneCuda rfl true 128 8
    none false false).1.1 (by decide)

/-- C7 counterexample: use_qigen is requested with the qigen capability
flag false, so the claim predicts the ValueError embedding the qigen
diagnostic; but with no cuda runtime, use_ipex left false and a failed
IPEX load, the cuda check runs first and the source raises NameError
reading the unbound warning latch before any qigen logic. -/
theorem qigen_request_no_gpu_nameerror :
    dynamically_import_QuantLinear capsNone false true 128 4 none false
      true false false false = .error (.nameError "_warned") :=
  rfl

/-- C7 amended: with HPU absent and use_qigen requested, provided the
latch read cannot raise (a cuda runtime is detected, or use_ipex was
passed true, or the IPEX import succeeded): a false qigen capability flag
raises the ValueError whose message embeds the captured diagnostic, and a
true flag returns qigen, for every configuration and regardless of every
other preference flag. -/
theorem qigen_request_spec (caps : Capabilities)
    (h : caps.hpu_importable = false)
    (use_triton desc_act : Bool) (group_size bits : Int)
    (disable_exllama : Option Bool)
    (disable_exllamav2 use_marlin use_tritonv2 use_ipex : Bool)
    (hg : (caps.cuda_is_available || use_ipex || caps.ipex_available)
      = true) :
    (caps.qigen_available = false →
      dynamically_import_QuantLinear caps use_triton desc_act group_size
        bits disable_exllama disable_exllamav2 true use_marlin use_tritonv2
        use_ipex
        = .error
            (.valueError (qigenUnavailableMessage caps.qigen_exception)) ∧
      ∃ p s, qigenUnavailableMessage caps.qigen_exception
        = p ++ caps.qigen_exception ++ s) ∧
    (caps.qigen_available = true →
      dynamically_import_QuantLinear caps use_triton desc_act group_size
        bits disable_exllama disable_exllamav2 true use_marlin use_tritonv2
        use_ipex = .ok .qigen) := by
  refine ⟨fun ha => ⟨?_, ?_⟩, fun ha => ?_⟩
  · cases hc : caps.cuda_is_available <;> cases hu : use_ipex <;>
      cases hip : caps.ipex_available <;>
        simp_all [dynamically_import_QuantLinear, cuda_check_use_ipex,
          select_backend_body, h]
  · exact ⟨"QIGen appears to be not available with the error: ",
      ". Please check your installation or use `use_qigen=False`.", rfl⟩
  · cases hc : caps.cuda_is_available <;> cases hu : use_ipex <;>
      cases hip : caps.ipex_available <;>
        simp_all [dynamically_import_QuantLinear, cuda_check_use_ipex,
          select_backend_body, h]

/-- Witness for C7 at a concrete input: use_qigen with the capability flag
false while every other preference flag is also set and a cuda runtime is
detected, showing qigen priority. -/
theorem qigen_request_at_instance :
    dynamically_import_QuantLinear capsNoneCuda true false (-1) 4
      (some false) true true true true true
      = .error
          (.valueError (qigenUnavailableMessage capsNoneCuda.qigen_exception)) :=
  ((qigen_request_spec capsNoneCuda rfl true false (-1) 4 (some false) true
    true true true rfl).1 rfl).1

/-- C8: in the default CUDA/CPU family, when the marlin, exllama-v2 and
exllama-v1 branch conditions all fail, the selector returns cuda-legacy
(qlinear_cuda_old) exactly when desc_act is false or group_size is -1, and
cuda-generic (qlinear_cuda) otherwise. -/
theorem cuda_fallback_spec (caps : Capabilities)
    (h : caps.hpu_importable = false)
    (hc : caps.cuda_is_available = true)
    (desc_act : Bool) (group_size bits : Int)
    (disable_exllama : Option Bool) (disable_exllamav2 use_marlin : Bool)
    (hm : (bits == 4 && use_marlin) = false)
    (hv2 : (bits == 4 && !disable_exllamav2 &&
      caps.exllamav2_kernels_available) = false)
    (hv1 : (bits == 4 &&
      !(effective_disable_exllama disable_exllama disable_exllamav2) &&
      caps.exllama_kernels_available) = false) :
    dynamically_import_QuantLinear caps false desc_act group_size bits
      disable_exllama disable_exllamav2 false use_marlin false false
      = .ok (if !desc_act || group_size == -1 then .cudaOld else .cuda) := by
  rw [dynamically_import_QuantLinear]
  simp only [h, Bool.false_eq_true, if_false, cuda_check_use_ipex, hc,
    Bool.not_true, Bool.false_and]
  rw [select_backend_body]
  simp only [hm, hv2, hv1, Bool.false_eq_true, if_false, Bool.or_self]
  split <;> simp_all

/-- Witness for C8 at the spec's own instance: default preference, bits 4,
group_size -1, desc_act false, both exllama capability flags false. -/
theorem cuda_fallback_at_instance :
    ((4 == (4 : Int) && false) = false ∧
      capsNoneCuda.exllama_kernels_available = false ∧
      capsNoneCuda.exllamav2_kernels_available = false) ∧
    dynamically_import_QuantLinear capsNoneCuda false false (-1) 4 none
      false false false false false = .ok .cudaOld :=
  ⟨⟨by decide, rfl, rfl⟩,
    cuda_fallback_spec capsNoneCuda rfl rfl false (-1) 4 none false false
      (by decide) (by decide) (by decide)⟩

/-- C10: with disable_exllama left unset and disable_exllamav2 false (the
defaults), the selector never returns exllama-v1, for every configuration,
every capability combination and every other preference flag; this holds
on the error paths too. -/
theorem exllamav1_unreachable_by_default (caps : Capabilities)
    (use_triton desc_act : Bool) (group_size bits : Int)
    (use_qigen use_marlin use_tritonv2 use_ipex : Bool) :
    dynamically_import_QuantLinear caps use_triton desc_act group_size bits
      none false use_qigen use_marlin use_tritonv2 use_ipex
      ≠ .ok .exllamaV1 := by
  rw [dynamically_import_QuantLinear]
  split
  · simp
  · split
    · simp
    · rw [select_backend_body]
      simp only [effective_disable_exllama]
      split_ifs <;> simp_all

/-- C9: both version comparators raise an assertion error exactly when the
operator lies outside the five-element whitelist, and for a whitelisted
operator they return the comparison of the parsed installed version
against the parsed target under that operator. -/
theorem version_comparators_spec (installed version op : String) :
    (op ∉ version_ops →
      compare_transformers_version installed version op
          = .error (.assertionError "") ∧
        compare_pytorch_version installed version op
          = .error (.assertionError "")) ∧
    (op ∈ version_ops →
      compare_transformers_version installed version op
          = .ok (apply_version_op op (parse_version installed)
              (parse_version version)) ∧
        compare_pytorch_version installed version op
          = .ok (apply_version_op op (parse_version installed)
              (parse_version version))) := by
  refine ⟨fun hop => ?_, fun hop => ?_⟩ <;>
    simp [compare_transformers_version, compare_pytorch_version, hop]

/-- Witness for C9 at a concrete input: the operator "neq" of the spec's
test is rejected, and "ge" on 4.28.1 against v4.28.0 is accepted. -/
theorem version_comparators_at_instance :
    (compare_transformers_version "4.28.1" "v4.28.0" "neq"
        = .error (.assertionError "") ∧
      compare_pytorch_version "4.28.1" "v4.28.0" "neq"
        = .error (.assertionError "")) ∧
    compare_transformers_version "4.28.1" "v4.28.0" "ge" = .ok true :=
  ⟨(version_comparators_spec "4.28.1" "v4.28.0" "neq").1 (by decide),
    ((version_comparators_spec "4.28.1" "v4.28.0" "ge").2 (by decide)).1.trans
      (congrArg Except.ok (by decide))⟩

/-- C1 counterexample: with every capability flag false and no cuda
runtime detected, the default-preference call does not return a fallback
handle: the cuda check forces use_ipex but first reads the warning latch,
which is unbound because the IPEX import failed, so the source raises
NameError before any selection, refuting the claim that a valid handle is
produced regardless of whether a general GPU runtime is detected. -/
theorem no_gpu_all_unavailable_raises :
    dynamically_import_QuantLinear capsNone false false (-1) 4 none false
      false false false false = .error (.nameError "_warned") :=
  rfl

/-- C1 amended: with every capability flag false and the default
preference flags, the selector returns a handle of the generic CUDA
fallback family without raising whenever a general GPU runtime is
detected, for every configuration; when no GPU runtime is detected it
instead raises NameError reading the unbound warning latch. -/
theorem all_unavailable_with_cuda_falls_back (qe me ie : String)
    (desc_act : Bool) (group_size bits : Int) :
    dynamically_import_QuantLinear
      { triton_available := false
        autogptq_cuda_available := false
        exllama_kernels_available := false
        exllamav2_kernels_available := false
        qigen_available := false
        qigen_exception := qe
        marlin_available := false
        marlin_exception := me
        ipex_available := false
        ipex_exception := ie
        hpu_importable := false
        cuda_is_available := true }
      false desc_act group_size bits none false false false false false
      = .ok (if !desc_act || group_size == -1 then .cudaOld else .cuda) ∧
    dynamically_import_QuantLinear
      { triton_available := false
        autogptq_cuda_available := false
        exllama_kernels_available := false
        exllamav2_kernels_available := false
        qigen_available := false
        qigen_exception := qe
        marlin_available := false
        marlin_exception := me
        ipex_available := false
        ipex_exception := ie
        hpu_importable := false
        cuda_is_available := false }
      false desc_act group_size bits none false false false false false
      = .error (.nameError "_warned") := by
  constructor
  · simp only [dynamically_import_QuantLinear, cuda_check_use_ipex,
      select_backend_body, effective_disable_exllama]
    split <;> simp_all [apply_ite]
  · rfl
